import Mathlib

/-!
# Verification of the eudico Subnet Coordinator subsystem

Shallow embedding of the hierarchical-consensus subnet actors:
* the checkpoint schema with its DAG-CBOR encoding and content
  identifier (`chain/consensus/hierarchical/checkpoints/schema`),
* the Subnet Coordinator Actor (SCA) state and its entry points
  `Register`, `Kill`, `Fund`, `CommitChildCheckpoint`
  (`chain/consensus/hierarchical/actors/sca`),
* the per-subnet actor's vote tally (`actors/subnet`),
* the block-message decoder fallback (`chain/types/blockmsg.go`).

Go machine integers are modelled as `Nat`/`Int`; byte strings as
`List Nat`; HAMT/AMT registries as association lists with the HAMT's
get/put/delete semantics; the actor runtime's transactional scoping as
pure functions returning `Except` (an aborted transaction leaves the
state unchanged, which the `Except.error` branch expresses by carrying
no state).
-/

/-! ## Bytes and big-endian arithmetic for CBOR headers -/

/-- Big-endian byte expansion of `n` on exactly `k` bytes
(least-significant byte last), as CBOR multi-byte length headers use. -/
def beBytes : Nat → Nat → List Nat
  | 0, _ => []
  | k + 1, n => beBytes k (n / 256) ++ [n % 256]

/-- Value of a big-endian byte list. -/
def beVal (bs : List Nat) : Nat :=
  bs.foldl (fun a b => a * 256 + b) 0

theorem beBytes_length (k n : Nat) : (beBytes k n).length = k := by
  induction k generalizing n with
  | zero => rfl
  | succ k ih => simp [beBytes, ih]

theorem beVal_foldl (a : Nat) (k n : Nat) (h : n < 256 ^ k) :
    (beBytes k n).foldl (fun a b => a * 256 + b) a = a * 256 ^ k + n := by
  induction k generalizing a n with
  | zero =>
    interval_cases n
    simp [beBytes]
  | succ k ih =>
    have hdiv : n / 256 < 256 ^ k := by
      apply Nat.div_lt_of_lt_mul
      calc n < 256 ^ (k + 1) := h
        _ = 256 * 256 ^ k := by ring
    simp only [beBytes, List.foldl_append, ih _ _ hdiv, List.foldl_cons, List.foldl_nil]
    have := Nat.div_add_mod n 256
    calc (a * 256 ^ k + n / 256) * 256 + n % 256
        = a * (256 ^ k * 256) + (256 * (n / 256) + n % 256) := by ring
      _ = a * 256 ^ (k + 1) + n := by rw [Nat.pow_succ]; omega

theorem beVal_beBytes (k n : Nat) (h : n < 256 ^ k) :
    beVal (beBytes k n) = n := by
  simpa [beVal] using beVal_foldl 0 k n h

theorem take_len_append {α : Type} (l1 l2 : List α) :
    (l1 ++ l2).take l1.length = l1 := by
  simp

theorem drop_len_append {α : Type} (l1 l2 : List α) :
    (l1 ++ l2).drop l1.length = l2 := by
  simp

/-! ## CBOR headers (major type + additional info) -/

/-- Encode a CBOR item header for major type `maj` carrying value `n`,
using the shortest form, as the DAG-CBOR codec emits. -/
def encAI (maj n : Nat) : List Nat :=
  if n < 24 then [32 * maj + n]
  else if n < 256 then [32 * maj + 24, n]
  else if n < 65536 then (32 * maj + 25) :: beBytes 2 n
  else if n < 4294967296 then (32 * maj + 26) :: beBytes 4 n
  else (32 * maj + 27) :: beBytes 8 n

/-- Decode a CBOR item header: major type, value, and remaining input. -/
def decHead : List Nat → Option (Nat × Nat × List Nat)
  | [] => none
  | b :: bs =>
    let maj := b / 32
    let ai := b % 32
    if ai < 24 then some (maj, ai, bs)
    else if ai = 24 then
      match bs with
      | [] => none
      | x :: r => some (maj, x, r)
    else if ai = 25 then
      if 2 ≤ bs.length then some (maj, beVal (bs.take 2), bs.drop 2) else none
    else if ai = 26 then
      if 4 ≤ bs.length then some (maj, beVal (bs.take 4), bs.drop 4) else none
    else if ai = 27 then
      if 8 ≤ bs.length then some (maj, beVal (bs.take 8), bs.drop 8) else none
    else none

theorem decHead_encAI (maj n : Nat) (rest : List Nat)
    (hn : n < 2 ^ 64) :
    decHead (encAI maj n ++ rest) = some (maj, n, rest) := by
  unfold encAI
  by_cases h24 : n < 24
  · have h1 : (32 * maj + n) / 32 = maj := by omega
    have h2 : (32 * maj + n) % 32 = n := by omega
    simp [h24, decHead, h1, h2]
  · by_cases h256 : n < 256
    · have h1 : (32 * maj + 24) / 32 = maj := by omega
      have h2 : (32 * maj + 24) % 32 = 24 := by omega
      simp [h24, h256, decHead, h1, h2]
    · by_cases h65536 : n < 65536
      · have h1 : (32 * maj + 25) / 32 = maj := by omega
        have h2 : (32 * maj + 25) % 32 = 25 := by omega
        have hlen : (beBytes 2 n).length = 2 := beBytes_length 2 n
        have ht : (beBytes 2 n ++ rest).take 2 = beBytes 2 n := by
          rw [← hlen]; exact take_len_append _ _
        have hd : (beBytes 2 n ++ rest).drop 2 = rest := by
          rw [← hlen]; exact drop_len_append _ _
        have hle : 2 ≤ (beBytes 2 n ++ rest).length := by
          simp [hlen]
        simp [h24, h256, h65536, decHead, h1, h2, hlen, ht, hd,
          beVal_beBytes 2 n (by omega)]
      · by_cases h32 : n < 4294967296
        · have h1 : (32 * maj + 26) / 32 = maj := by omega
          have h2 : (32 * maj + 26) % 32 = 26 := by omega
          have hlen : (beBytes 4 n).length = 4 := beBytes_length 4 n
          have ht : (beBytes 4 n ++ rest).take 4 = beBytes 4 n := by
            rw [← hlen]; exact take_len_append _ _
          have hd : (beBytes 4 n ++ rest).drop 4 = rest := by
            rw [← hlen]; exact drop_len_append _ _
          have hle : 4 ≤ (beBytes 4 n ++ rest).length := by
            simp [hlen]
          simp [h24, h256, h65536, h32, decHead, h1, h2, hlen, ht, hd,
            beVal_beBytes 4 n (by omega)]
        · have h1 : (32 * maj + 27) / 32 = maj := by omega
          have h2 : (32 * maj + 27) % 32 = 27 := by omega
          have hlen : (beBytes 8 n).length = 8 := beBytes_length 8 n
          have ht : (beBytes 8 n ++ rest).take 8 = beBytes 8 n := by
            rw [← hlen]; exact take_len_append _ _
          have hd : (beBytes 8 n ++ rest).drop 8 = rest := by
            rw [← hlen]; exact drop_len_append _ _
          have hle : 8 ≤ (beBytes 8 n ++ rest).length := by
            simp [hlen]
          have hn8 : n < 256 ^ 8 := by
            calc n < 2 ^ 64 := hn
              _ = 256 ^ 8 := by norm_num
          simp [h24, h256, h65536, h32, decHead, h1, h2, hlen, ht, hd,
            beVal_beBytes 8 n hn8]

/-! ## CBOR byte strings, text strings, integers and links -/

/-- Encode a CBOR byte/text string under major type `maj` (2 or 3). -/
def encBytesMaj (maj : Nat) (bs : List Nat) : List Nat :=
  encAI maj bs.length ++ bs

/-- Decode a CBOR byte/text string expected under major type `maj`. -/
def decBytesMaj (maj : Nat) (s : List Nat) : Option (List Nat × List Nat) :=
  match decHead s with
  | some (m, n, r) =>
    if m = maj ∧ n ≤ r.length then some (r.take n, r.drop n) else none
  | none => none

theorem decBytesMaj_enc (maj : Nat) (bs rest : List Nat)
    (hlen : bs.length < 2 ^ 64) :
    decBytesMaj maj (encBytesMaj maj bs ++ rest) = some (bs, rest) := by
  unfold encBytesMaj decBytesMaj
  rw [List.append_assoc, decHead_encAI maj bs.length (bs ++ rest) hlen]
  have ht : (bs ++ rest).take bs.length = bs := take_len_append _ _
  have hd : (bs ++ rest).drop bs.length = rest := drop_len_append _ _
  simp [ht, hd]

/-- Encode a CBOR integer (major type 0 for non-negative, 1 for negative),
as the DAG-CBOR codec encodes the schema's `Int` fields. -/
def encInt (i : Int) : List Nat :=
  if 0 ≤ i then encAI 0 i.toNat else encAI 1 (-1 - i).toNat

/-- Decode a CBOR integer. -/
def decInt (s : List Nat) : Option (Int × List Nat) :=
  match decHead s with
  | some (0, n, r) => some ((n : Int), r)
  | some (1, n, r) => some (-1 - (n : Int), r)
  | _ => none

theorem decInt_encInt (i : Int) (rest : List Nat)
    (hlo : -(2 ^ 64) ≤ i) (hhi : i < 2 ^ 64) :
    decInt (encInt i ++ rest) = some (i, rest) := by
  unfold encInt decInt
  by_cases h : 0 ≤ i
  · have hn : i.toNat < 2 ^ 64 := by omega
    rw [if_pos h, decHead_encAI 0 i.toNat rest hn]
    simp
    omega
  · have hn : (-1 - i).toNat < 2 ^ 64 := by omega
    rw [if_neg h, decHead_encAI 1 (-1 - i).toNat rest hn]
    simp
    omega

/-- Encode an IPLD link (CBOR tag 42 wrapping the CID bytes with the
multibase-identity `0x00` prefix), as the DAG-CBOR codec emits links. -/
def encLink (c : List Nat) : List Nat :=
  encAI 6 42 ++ encBytesMaj 2 (0 :: c)

/-- Decode an IPLD link. -/
def decLink (s : List Nat) : Option (List Nat × List Nat) :=
  match decHead s with
  | some (m, n, r) =>
    if m = 6 ∧ n = 42 then
      match decBytesMaj 2 r with
      | some (b :: c, r1) => if b = 0 then some (c, r1) else none
      | _ => none
    else none
  | none => none

theorem decLink_encLink (c rest : List Nat) (hlen : c.length + 1 < 2 ^ 64) :
    decLink (encLink c ++ rest) = some (c, rest) := by
  unfold encLink decLink
  rw [List.append_assoc, decHead_encAI 6 42 (encBytesMaj 2 (0 :: c) ++ rest) (by norm_num)]
  simp only []
  rw [decBytesMaj_enc 2 (0 :: c) rest (by simpa using hlen)]
  simp

/-! ## Checkpoint schema (`checkpoints/schema`)

`ChildCheck`, `CheckData` and `Checkpoint` mirror the Go structs.
Strings are modelled as their byte sequences, CIDs as the byte
sequences of their binary form, and the Go pointer `XShardMsg
*MsgTreeList` (where `MsgTreeList` is an empty struct, still under
development in this version) as `Option Unit`. -/

structure ChildCheck where
  Source : List Nat
  Check : List Nat
deriving DecidableEq

structure CheckData where
  Source : List Nat
  TipSet : List Nat
  Epoch : Int
  PrevCheckpoint : List Nat
  Childs : List ChildCheck
  XShardMsg : Option Unit
deriving DecidableEq

structure Checkpoint where
  Data : CheckData
  Signature : List Nat
deriving DecidableEq

/-- The UTF-8 bytes of the map key `Data`. -/
def keyData : List Nat := [68, 97, 116, 97]
/-- The UTF-8 bytes of the map key `Signature`. -/
def keySignature : List Nat := [83, 105, 103, 110, 97, 116, 117, 114, 101]
/-- The UTF-8 bytes of the map key `Source`. -/
def keySource : List Nat := [83, 111, 117, 114, 99, 101]
/-- The UTF-8 bytes of the map key `TipSet`. -/
def keyTipSet : List Nat := [84, 105, 112, 83, 101, 116]
/-- The UTF-8 bytes of the map key `Epoch`. -/
def keyEpoch : List Nat := [69, 112, 111, 99, 104]
/-- The UTF-8 bytes of the map key `PrevCheckpoint`. -/
def keyPrevCheckpoint : List Nat :=
  [80, 114, 101, 118, 67, 104, 101, 99, 107, 112, 111, 105, 110, 116]
/-- The UTF-8 bytes of the map key `Childs`. -/
def keyChilds : List Nat := [67, 104, 105, 108, 100, 115]
/-- The UTF-8 bytes of the map key `XShardMsg`. -/
def keyXShardMsg : List Nat := [88, 83, 104, 97, 114, 100, 77, 115, 103]
/-- The UTF-8 bytes of the map key `Check`. -/
def keyCheck : List Nat := [67, 104, 101, 99, 107]

/-- DAG-CBOR encoding of one `ChildCheck` (map of its two fields in
schema order). -/
def encChildCheck (cc : ChildCheck) : List Nat :=
  encAI 5 2
    ++ encBytesMaj 3 keySource ++ encBytesMaj 3 cc.Source
    ++ encBytesMaj 3 keyCheck ++ encLink cc.Check

/-- DAG-CBOR encoding of the nullable `XShardMsg` field: CBOR `null`
for a nil pointer, the empty map for a present (empty) `MsgTreeList`. -/
def encXShard : Option Unit → List Nat
  | some _ => encAI 5 0
  | none => [246]

/-- DAG-CBOR encoding of `CheckData` (map of its six fields in schema
order; `XShardMsg` is nullable, so its key is always present). -/
def encCheckData (d : CheckData) : List Nat :=
  encAI 5 6
    ++ encBytesMaj 3 keySource ++ encBytesMaj 3 d.Source
    ++ encBytesMaj 3 keyTipSet ++ encBytesMaj 2 d.TipSet
    ++ encBytesMaj 3 keyEpoch ++ encInt d.Epoch
    ++ encBytesMaj 3 keyPrevCheckpoint ++ encLink d.PrevCheckpoint
    ++ encBytesMaj 3 keyChilds ++ encAI 4 d.Childs.length
    ++ (d.Childs.map encChildCheck).flatten
    ++ encBytesMaj 3 keyXShardMsg ++ encXShard d.XShardMsg

/-- `Checkpoint.MarshalCBOR`: DAG-CBOR encoding of the whole checkpoint
(map with the `Data` and `Signature` fields in schema order). -/
def Checkpoint.MarshalCBOR (c : Checkpoint) : List Nat :=
  encAI 5 2
    ++ encBytesMaj 3 keyData ++ encCheckData c.Data
    ++ encBytesMaj 3 keySignature ++ encBytesMaj 2 c.Signature

/-- Decode an expected map key: succeeds when the next text string is
exactly `k`. -/
def decKey (k : List Nat) (s : List Nat) : Option (List Nat) :=
  match decBytesMaj 3 s with
  | some (bs, r) => if bs = k then some r else none
  | none => none

/-- Decode one `ChildCheck`. -/
def decChildCheck (s : List Nat) : Option (ChildCheck × List Nat) :=
  (decHead s).bind fun x =>
    if x.1 = 5 ∧ x.2.1 = 2 then
      (decKey keySource x.2.2).bind fun r1 =>
      (decBytesMaj 3 r1).bind fun src =>
      (decKey keyCheck src.2).bind fun r2 =>
      (decLink r2).bind fun chk =>
      some (⟨src.1, chk.1⟩, chk.2)
    else none

/-- Decode a counted sequence of `ChildCheck`s. -/
def decChilds : Nat → List Nat → Option (List ChildCheck × List Nat)
  | 0, s => some ([], s)
  | k + 1, s =>
    (decChildCheck s).bind fun c =>
    (decChilds k c.2).bind fun cs =>
    some (c.1 :: cs.1, cs.2)

/-- Decode the nullable `XShardMsg` value. -/
def decXShard (s : List Nat) : Option (Option Unit × List Nat) :=
  match decHead s with
  | some (m, n, r) =>
    if m = 7 ∧ n = 22 then some (none, r)
    else if m = 5 ∧ n = 0 then some (some (), r)
    else none
  | none => none

/-- Decode the first three `CheckData` fields (`Source`, `TipSet`,
`Epoch`).  Split from `decCheckData` to keep each definition small. -/
def decCD1 (s : List Nat) : Option ((List Nat × List Nat × Int) × List Nat) :=
  (decKey keySource s).bind fun r1 =>
  (decBytesMaj 3 r1).bind fun src =>
  (decKey keyTipSet src.2).bind fun r2 =>
  (decBytesMaj 2 r2).bind fun ts =>
  (decKey keyEpoch ts.2).bind fun r3 =>
  (decInt r3).bind fun ep =>
  some ((src.1, ts.1, ep.1), ep.2)

/-- Decode the last three `CheckData` fields (`PrevCheckpoint`,
`Childs`, `XShardMsg`). -/
def decCD2 (s : List Nat) : Option ((List Nat × List ChildCheck × Option Unit) × List Nat) :=
  (decKey keyPrevCheckpoint s).bind fun r4 =>
  (decLink r4).bind fun prev =>
  (decKey keyChilds prev.2).bind fun r5 =>
  (decHead r5).bind fun y =>
  if y.1 = 4 then
    (decChilds y.2.1 y.2.2).bind fun cs =>
    (decKey keyXShardMsg cs.2).bind fun r6 =>
    (decXShard r6).bind fun xs =>
    some ((prev.1, cs.1, xs.1), xs.2)
  else none

/-- Decode `CheckData`. -/
def decCheckData (s : List Nat) : Option (CheckData × List Nat) :=
  (decHead s).bind fun x =>
    if x.1 = 5 ∧ x.2.1 = 6 then
      (decCD1 x.2.2).bind fun a =>
      (decCD2 a.2).bind fun b =>
      some (⟨a.1.1, a.1.2.1, a.1.2.2, b.1.1, b.1.2.1, b.1.2.2⟩, b.2)
    else none

/-- `Checkpoint.UnmarshalCBOR` on the item level: decode a checkpoint
and return the remaining input. -/
def decCheckpoint (s : List Nat) : Option (Checkpoint × List Nat) :=
  (decHead s).bind fun x =>
    if x.1 = 5 ∧ x.2.1 = 2 then
      (decKey keyData x.2.2).bind fun r1 =>
      (decCheckData r1).bind fun d =>
      (decKey keySignature d.2).bind fun r2 =>
      (decBytesMaj 2 r2).bind fun sig =>
      some (⟨d.1, sig.1⟩, sig.2)
    else none

/-- `Checkpoint.UnmarshalCBOR`: decode a checkpoint from bytes. -/
def Checkpoint.UnmarshalCBOR (b : List Nat) : Option Checkpoint :=
  (decCheckpoint b).map fun x => x.1

/-- Size bounds under which the Go encoder succeeds and the CBOR
headers are faithful: list and byte-string lengths fit in a 64-bit
header and the epoch fits in a Go `int`.  (Byte values above 255 can
not arise in Go; they are irrelevant to the codec model, which never
re-inspects payload bytes.) -/
def wfChild (cc : ChildCheck) : Prop :=
  cc.Source.length < 2 ^ 64 ∧ cc.Check.length + 1 < 2 ^ 64

instance (cc : ChildCheck) : Decidable (wfChild cc) := by
  unfold wfChild; infer_instance

/-- Well-formedness of `CheckData`: size bounds on every field. -/
def wfCheckData (d : CheckData) : Prop :=
  d.Source.length < 2 ^ 64 ∧ d.TipSet.length < 2 ^ 64 ∧
  -(2 ^ 63) ≤ d.Epoch ∧ d.Epoch < 2 ^ 63 ∧
  d.PrevCheckpoint.length + 1 < 2 ^ 64 ∧
  d.Childs.length < 2 ^ 64 ∧ (∀ cc ∈ d.Childs, wfChild cc)

instance (d : CheckData) : Decidable (wfCheckData d) := by
  unfold wfCheckData; infer_instance

/-- Well-formedness of a `Checkpoint`: size bounds on every field. -/
def wfCheckpoint (c : Checkpoint) : Prop :=
  wfCheckData c.Data ∧ c.Signature.length < 2 ^ 64

instance (c : Checkpoint) : Decidable (wfCheckpoint c) := by
  unfold wfCheckpoint; infer_instance

/-! ## Round-trip of the checkpoint codec -/

theorem decKey_enc (k rest : List Nat) (h : k.length < 2 ^ 64) :
    decKey k (encBytesMaj 3 k ++ rest) = some rest := by
  unfold decKey
  rw [decBytesMaj_enc 3 k rest h]
  simp

theorem decChildCheck_enc (cc : ChildCheck) (rest : List Nat) (h : wfChild cc) :
    decChildCheck (encChildCheck cc ++ rest) = some (cc, rest) := by
  obtain ⟨h1, h2⟩ := h
  unfold encChildCheck decChildCheck
  simp only [List.append_assoc]
  rw [decHead_encAI 5 2 _ (by norm_num)]
  simp only [Option.some_bind]
  norm_num
  rw [decKey_enc keySource _ (by norm_num [keySource])]
  simp only [Option.some_bind]
  rw [decBytesMaj_enc 3 cc.Source _ h1]
  simp only [Option.some_bind]
  rw [decKey_enc keyCheck _ (by norm_num [keyCheck])]
  simp only [Option.some_bind]
  rw [decLink_encLink cc.Check rest h2]
  simp

theorem decChilds_enc (l : List ChildCheck) (rest : List Nat)
    (h : ∀ cc ∈ l, wfChild cc) :
    decChilds l.length ((l.map encChildCheck).flatten ++ rest) = some (l, rest) := by
  induction l with
  | nil => simp [decChilds]
  | cons c l ih =>
    simp only [List.map_cons, List.flatten_cons, List.length_cons, List.append_assoc]
    rw [decChilds]
    rw [decChildCheck_enc c _ (h c (by simp))]
    simp only [Option.some_bind]
    rw [ih (fun cc hcc => h cc (by simp [hcc]))]
    simp

theorem decXShard_enc (x : Option Unit) (rest : List Nat) :
    decXShard (encXShard x ++ rest) = some (x, rest) := by
  cases x with
  | none => simp [encXShard, decXShard, decHead]
  | some u => 
    unfold encXShard decXShard
    rw [decHead_encAI 5 0 _ (by norm_num)]
    simp

theorem decCD1_enc (src ts : List Nat) (ep : Int) (rest : List Nat)
    (h1 : src.length < 2 ^ 64) (h2 : ts.length < 2 ^ 64)
    (hlo : -(2 ^ 64) ≤ ep) (hhi : ep < 2 ^ 64) :
    decCD1 (encBytesMaj 3 keySource ++ (encBytesMaj 3 src
      ++ (encBytesMaj 3 keyTipSet ++ (encBytesMaj 2 ts
      ++ (encBytesMaj 3 keyEpoch ++ (encInt ep ++ rest)))))) =
      some ((src, ts, ep), rest) := by
  unfold decCD1
  rw [decKey_enc keySource _ (by norm_num [keySource])]
  simp only [Option.some_bind]
  rw [decBytesMaj_enc 3 src _ h1]
  simp only [Option.some_bind]
  rw [decKey_enc keyTipSet _ (by norm_num [keyTipSet])]
  simp only [Option.some_bind]
  rw [decBytesMaj_enc 2 ts _ h2]
  simp only [Option.some_bind]
  rw [decKey_enc keyEpoch _ (by norm_num [keyEpoch])]
  simp only [Option.some_bind]
  rw [decInt_encInt ep rest hlo hhi]
  simp

theorem decCD2_enc (prev : List Nat) (cs : List ChildCheck) (x : Option Unit)
    (rest : List Nat) (h5 : prev.length + 1 < 2 ^ 64) (h6 : cs.length < 2 ^ 64)
    (h7 : ∀ cc ∈ cs, wfChild cc) :
    decCD2 (encBytesMaj 3 keyPrevCheckpoint ++ (encLink prev
      ++ (encBytesMaj 3 keyChilds ++ (encAI 4 cs.length
      ++ ((cs.map encChildCheck).flatten
      ++ (encBytesMaj 3 keyXShardMsg ++ (encXShard x ++ rest))))))) =
      some ((prev, cs, x), rest) := by
  unfold decCD2
  rw [decKey_enc keyPrevCheckpoint _ (by norm_num [keyPrevCheckpoint])]
  simp only [Option.some_bind]
  rw [decLink_encLink prev _ h5]
  simp only [Option.some_bind]
  rw [decKey_enc keyChilds _ (by norm_num [keyChilds])]
  simp only [Option.some_bind]
  rw [decHead_encAI 4 cs.length _ h6]
  simp only [Option.some_bind]
  norm_num
  rw [decChilds_enc cs _ h7]
  simp only [Option.some_bind]
  rw [decKey_enc keyXShardMsg _ (by norm_num [keyXShardMsg])]
  simp only [Option.some_bind]
  rw [decXShard_enc x rest]
  simp

theorem decCheckData_enc (d : CheckData) (rest : List Nat) (h : wfCheckData d) :
    decCheckData (encCheckData d ++ rest) = some (d, rest) := by
  obtain ⟨h1, h2, h3, h4, h5, h6, h7⟩ := h
  unfold encCheckData decCheckData
  simp only [List.append_assoc]
  rw [decHead_encAI 5 6 _ (by norm_num)]
  simp only [Option.some_bind]
  norm_num
  rw [decCD1_enc d.Source d.TipSet d.Epoch _ h1 h2 (by omega) (by omega)]
  simp only [Option.some_bind]
  rw [decCD2_enc d.PrevCheckpoint d.Childs d.XShardMsg rest h5 h6 h7]
  simp

set_option maxHeartbeats 1000000 in
theorem decCheckpoint_enc (c : Checkpoint) (rest : List Nat) (h : wfCheckpoint c) :
    decCheckpoint (c.MarshalCBOR ++ rest) = some (c, rest) := by
  obtain ⟨hd, hs⟩ := h
  unfold Checkpoint.MarshalCBOR decCheckpoint
  simp only [List.append_assoc]
  rw [decHead_encAI 5 2 _ (by norm_num)]
  simp only [Option.some_bind]
  norm_num
  rw [decKey_enc keyData _ (by norm_num [keyData])]
  simp only [Option.some_bind]
  rw [decCheckData_enc c.Data _ hd]
  simp only [Option.some_bind]
  rw [decKey_enc keySignature _ (by norm_num [keySignature])]
  simp only [Option.some_bind]
  rw [decBytesMaj_enc 2 c.Signature rest hs]
  simp

/-! ## Checkpoint CID, equality and child aggregation -/

/-- Little-endian byte decomposition of `n` on `k` bytes, used to
shape the model digest as a 16-byte multihash payload. -/
def natToBytes : Nat → Nat → List Nat
  | 0, _ => []
  | k + 1, n => n % 256 :: natToBytes k (n / 256)

/-- Executable stand-in digest for the external SHA-256 library: a
rolling fold of the encoded bytes truncated to 128 bits.  Every claim
about CIDs depends only on the digest being a function of the encoded
bytes (the link prototype fixes codec DAG-CBOR, hash SHA-256, length
16), never on the concrete hash values, so the external hash is
modelled by an executable digest of the same 16-byte shape. -/
def hashModel (bs : List Nat) : List Nat :=
  natToBytes 16 (bs.foldl (fun a b => (a * 131 + b + 17) % 2 ^ 128) 5381)

/-- `Checkpoint.Cid`: the content identifier of a checkpoint.  As in
the source, it is computed over `Checkpoint{Data: c.Data}` — the same
data with the signature zeroed — so the signature never contributes. -/
def Checkpoint.Cid (c : Checkpoint) : List Nat :=
  hashModel (Checkpoint.MarshalCBOR { Data := c.Data, Signature := [] })

/-- `Checkpoint.Equals`: CID equality, as in the source. -/
def Checkpoint.Equals (c ch : Checkpoint) : Bool :=
  decide (Checkpoint.Cid c = Checkpoint.Cid ch)

/-- Modelled from the spec: the canonical empty checkpoint
(`schema.EmptyCheckpoint`, whose definition is outside the provided
sources): every field is empty/zero and the `MsgTreeList` pointer is
nil.  Used as the initial `prev_checkpoint` of a registered subnet. -/
def EmptyCheckpoint : Checkpoint :=
  { Data := { Source := [], TipSet := [], Epoch := 0, PrevCheckpoint := [],
              Childs := [], XShardMsg := none },
    Signature := [] }

/-- Modelled from the spec: `Checkpoint.IsEmpty` (outside the provided
sources) recognises the canonical empty checkpoint by its CID. -/
def Checkpoint.IsEmpty (c : Checkpoint) : Bool :=
  Checkpoint.Equals c EmptyCheckpoint

/-- Modelled from the spec: `previous_check() → CID` returns the
`prev_checkpoint` link of the data. -/
def Checkpoint.PreviousCheck (c : Checkpoint) : List Nat :=
  c.Data.PrevCheckpoint

/-- `Checkpoint.hasChild`: index of the first entry of `Data.Childs`
with the same `Source`, or `-1` when absent, as in the source. -/
def Checkpoint.hasChild (c : Checkpoint) (child : ChildCheck) : Int :=
  match c.Data.Childs.findIdx? (fun ch => ch.Source = child.Source) with
  | some i => (i : Int)
  | none => -1

/-- One iteration of `Checkpoint.AddChildChecks`: when an entry with
the same source exists at index `ind`, the source code overwrites that
entry with `ch` and — having no early exit — still appends `ch`. -/
def addChildCheck (c : Checkpoint) (ch : ChildCheck) : Checkpoint :=
  let ind := c.hasChild ch
  let c1 := if 0 ≤ ind then
    { c with Data := { c.Data with Childs := c.Data.Childs.set ind.toNat ch } }
  else c
  { c1 with Data := { c1.Data with Childs := c1.Data.Childs ++ [ch] } }

/-- `Checkpoint.AddChildChecks`: fold `addChildCheck` over the list of
child checkpoints to add. -/
def Checkpoint.AddChildChecks (c : Checkpoint) (childs : List ChildCheck) : Checkpoint :=
  childs.foldl addChildCheck c

/-- Modelled from the spec: `add_child(other)` (outside the provided
sources) appends `other`'s CID under its source via `AddChildChecks`. -/
def Checkpoint.AddChild (c commit : Checkpoint) : Checkpoint :=
  Checkpoint.AddChildChecks c
    [{ Source := commit.Data.Source, Check := Checkpoint.Cid commit }]

/-- `NewRawCheckpoint` as in the schema source: a checkpoint template
with the given source, epoch, previous link and cross-message tree. -/
def NewRawCheckpoint (source : List Nat) (epoch : Int) (prev : List Nat)
    (xmsgs : Option Unit) : Checkpoint :=
  { Data := { Source := source, TipSet := [], Epoch := epoch,
              PrevCheckpoint := prev, Childs := [], XShardMsg := xmsgs },
    Signature := [] }

/-! ## SubnetIDs, addresses and registry maps

Go `address.Address` is a string wrapper; it is modelled as its byte
sequence.  A `SubnetID` is the `/`-separated path string from the root
to the subnet (spec: an ordered list of addresses from root to leaf),
modelled as its byte sequence; `0x2F` is the separator byte. -/

/-- An address, as the bytes of its string form. -/
abbrev Address := List Nat

/-- A subnet identifier, as the bytes of its path string. -/
abbrev SubnetID := List Nat

/-- Modelled from the spec: `NewSubnetID(parent, addr)` is the path
`parent ⧺ addr`, i.e. the parent string, a `/`, and the address. -/
def NewSubnetID (parent : SubnetID) (addr : Address) : SubnetID :=
  parent ++ 47 :: addr

/-- Modelled from the spec: `SubnetID.Actor()` (outside the provided
sources) returns the last element of the path: the bytes after the
last `/` separator. -/
def subnetIDActor (s : SubnetID) : Option Address :=
  if s = [] then none
  else some (s.foldl (fun acc b => if b = 47 then [] else acc ++ [b]) [])

/-- HAMT lookup on the association-list model. -/
def mapGet {K V : Type} [DecidableEq K] : List (K × V) → K → Option V
  | [], _ => none
  | p :: m, k => if p.1 = k then some p.2 else mapGet m k

/-- HAMT `Put`: replace the entry under the key, or append it. -/
def mapPut {K V : Type} [DecidableEq K] : List (K × V) → K → V → List (K × V)
  | [], k, v => [(k, v)]
  | p :: m, k, v => if p.1 = k then (k, v) :: m else p :: mapPut m k v

/-- HAMT `Delete`: remove the entries under the key. -/
def mapDel {K V : Type} [DecidableEq K] (m : List (K × V)) (k : K) : List (K × V) :=
  m.filter (fun p => ¬ p.1 = k)

theorem mapGet_put_same {K V : Type} [DecidableEq K]
    (m : List (K × V)) (k : K) (v : V) : mapGet (mapPut m k v) k = some v := by
  induction m with
  | nil => simp [mapPut, mapGet]
  | cons p m ih =>
    by_cases h : p.1 = k
    · simp [mapPut, h, mapGet]
    · simp [mapPut, h, mapGet, ih]

theorem mapGet_del_same {K V : Type} [DecidableEq K]
    (m : List (K × V)) (k : K) : mapGet (mapDel m k) k = none := by
  induction m with
  | nil => simp [mapDel, mapGet]
  | cons p m ih =>
    by_cases h : p.1 = k
    · simpa [mapDel, h] using ih
    · simpa [mapDel, h, mapGet] using ih

/-! ## SCA state (`actors/sca`) -/

/-- Exit codes of aborted actor transactions. -/
inductive Exit where
  | IllegalArgument
  | IllegalState
  | Forbidden
  | SysErrForbidden
deriving DecidableEq

/-- Equality of transaction outcomes is decidable. -/
instance {e a : Type} [DecidableEq e] [DecidableEq a] : DecidableEq (Except e a) := fun x y =>
  match x, y with
  | Except.error e1, Except.error e2 =>
    if h : e1 = e2 then Decidable.isTrue (by rw [h])
    else Decidable.isFalse (fun hc => h (by injection hc))
  | Except.error _, Except.ok _ => Decidable.isFalse (fun hc => Except.noConfusion hc)
  | Except.ok _, Except.error _ => Decidable.isFalse (fun hc => Except.noConfusion hc)
  | Except.ok a1, Except.ok a2 =>
    if h : a1 = a2 then Decidable.isTrue (by rw [h])
    else Decidable.isFalse (fun hc => h (by injection hc))

/-- Caller type recognised by `rt.ValidateImmediateCallerType`. -/
inductive CallerT where
  | Account
  | SubnetActor
  | Other
deriving DecidableEq

/-- Subnet lifecycle status in the SCA registry (`sca.Status`):
`Active` iota-first as in the source. -/
inductive Status where
  | Active
  | Inactive
  | Killed
deriving DecidableEq

/-- Modelled from the spec: a top-down cross-message carrying `Value`
to address `To` in the child, numbered `Nonce`. -/
structure CrossMsg where
  To : Address
  Value : Int
  Nonce : Nat
deriving DecidableEq

/-- Modelled from the spec: `CrossMsgMeta` — a compact reference to a
bundle of cross-messages. -/
structure CrossMsgMeta where
  From : SubnetID
  To : SubnetID
  MsgsCid : List Nat
  Nonce : Nat
  Value : Int
deriving DecidableEq

/-- Modelled from the spec (§3, subnet registry entry): the `Subnet`
record stored in the SCA's registry.  The struct declaration itself is
outside the provided sources; its fields are those the provided
`registerSubnet`, `Kill`, `Fund` and `CommitChildCheckpoint` use. -/
structure Subnet where
  ID : SubnetID
  ParentID : SubnetID
  Stake : Int
  TopDownMsgs : List CrossMsg
  Nonce : Nat
  CircSupply : Int
  Status : Status
  PrevCheckpoint : Checkpoint
deriving DecidableEq

/-- `SCAState`, with the HAMT/AMT roots replaced by the collections
they denote. -/
structure SCAState where
  NetworkName : SubnetID
  TotalSubnets : Nat
  MinStake : Int
  Subnets : List (SubnetID × Subnet)
  CheckPeriod : Int
  Checkpoints : List (Int × Checkpoint)
  CheckMsgsRegistry : List (List Nat × List CrossMsgMeta)
  Nonce : Nat
  BottomUpNonce : Nat
  BottomUpMsgsMeta : List CrossMsgMeta
  AppliedBottomUpNonce : Nat
  AppliedTopDownNonce : Nat
deriving DecidableEq

/-- `ConstructorParams` of the SCA. -/
structure ConstructorParams where
  NetworkName : SubnetID
  CheckpointPeriod : Nat
deriving DecidableEq

/-- `DefaultCheckpointPeriod` (10 epochs). -/
def DefaultCheckpointPeriod : Int := 10
/-- `MinCheckpointPeriod` (10 epochs). -/
def MinCheckpointPeriod : Int := 10
/-- `MinSubnetStake` (1 FIL = 10^18 attoFIL). -/
def MinSubnetStake : Int := 10 ^ 18
/-- `MaxNonce`: `^uint64(0)`, the all-ones 64-bit value. -/
def MaxNonce : Nat := 2 ^ 64 - 1

/-- `ConstructSCAState`: the initial SCA state.  Fields absent from
the Go composite literal start at their zero values. -/
def ConstructSCAState (params : ConstructorParams) : SCAState :=
  let period : Int :=
    if (params.CheckpointPeriod : Int) < MinCheckpointPeriod then
      DefaultCheckpointPeriod
    else (params.CheckpointPeriod : Int)
  { NetworkName := params.NetworkName
    TotalSubnets := 0
    MinStake := MinSubnetStake
    Subnets := []
    CheckPeriod := period
    Checkpoints := []
    CheckMsgsRegistry := []
    Nonce := 0
    BottomUpNonce := 0
    BottomUpMsgsMeta := []
    AppliedBottomUpNonce := MaxNonce
    AppliedTopDownNonce := 0 }

/-- `SCAState.GetSubnet` on the registry model. -/
def GetSubnet (st : SCAState) (id : SubnetID) : Option Subnet :=
  mapGet st.Subnets id

/-- `flushSubnet`: store the subnet back under its ID. -/
def flushSubnet (st : SCAState) (sh : Subnet) : SCAState :=
  { st with Subnets := mapPut st.Subnets sh.ID sh }

/-- `flushCheckpoint`: store a checkpoint under its epoch. -/
def flushCheckpoint (st : SCAState) (ch : Checkpoint) : SCAState :=
  { st with Checkpoints := mapPut st.Checkpoints ch.Data.Epoch ch }

/-- `registerSubnet`: create the new `Active` entry with empty
top-down queue, zero circulating supply and the empty checkpoint as
previous checkpoint, and count it. -/
def registerSubnet (st : SCAState) (shid : SubnetID) (stake : Int) : SCAState :=
  let sh : Subnet :=
    { ID := shid
      ParentID := st.NetworkName
      Stake := stake
      TopDownMsgs := []
      Nonce := 0
      CircSupply := 0
      Status := Status.Active
      PrevCheckpoint := EmptyCheckpoint }
  let st1 := { st with TotalSubnets := st.TotalSubnets + 1 }
  flushSubnet st1 sh

/-- `SubnetCoordActor.Register`: abort when the subnet is already
registered or the sent value does not exceed the minimum stake;
otherwise register and return the new `SubnetID`. -/
def Register (st : SCAState) (callerType : CallerT) (caller : Address)
    (value : Int) : Except Exit (SCAState × SubnetID) :=
  if callerType ≠ CallerT.SubnetActor then Except.error Exit.SysErrForbidden
  else
    let shid := NewSubnetID st.NetworkName caller
    if (GetSubnet st shid).isSome then Except.error Exit.IllegalArgument
    else if value ≤ st.MinStake then Except.error Exit.IllegalArgument
    else Except.ok (registerSubnet st shid value, shid)

/-- `SubnetCoordActor.Kill`: abort when the subnet is unknown, the
actor balance cannot cover the stake, or funds are still circulating;
otherwise remove the entry and send the full stake back (the returned
amount models the send). -/
def Kill (st : SCAState) (callerType : CallerT) (caller : Address)
    (balance : Int) : Except Exit (SCAState × Int) :=
  if callerType ≠ CallerT.SubnetActor then Except.error Exit.SysErrForbidden
  else
    let shid := NewSubnetID st.NetworkName caller
    match GetSubnet st shid with
    | none => Except.error Exit.IllegalArgument
    | some sh =>
      if balance < sh.Stake then Except.error Exit.IllegalState
      else if 0 < sh.CircSupply then Except.error Exit.Forbidden
      else Except.ok ({ st with Subnets := mapDel st.Subnets shid }, sh.Stake)

/-- Modelled from the spec: `Subnet.freezeFunds` (outside the provided
sources) adds the received value to the subnet's circulating supply. -/
def freezeFunds (sh : Subnet) (value : Int) : Subnet :=
  { sh with CircSupply := sh.CircSupply + value }

/-- Modelled from the spec: `Subnet.addFundMsg` (outside the provided
sources) appends a top-down cross-message carrying the funded value,
addressed to the caller, under the subnet's current nonce, and
advances the nonce. -/
def addFundMsg (sh : Subnet) (caller : Address) (value : Int) : Subnet :=
  { sh with
    TopDownMsgs := sh.TopDownMsgs ++ [{ To := caller, Value := value, Nonce := sh.Nonce }]
    Nonce := sh.Nonce + 1 }

/-- `SubnetCoordActor.Fund`: only accounts may fund; the value must be
positive and the subnet registered; the funds are frozen and a
top-down message is queued. -/
def Fund (st : SCAState) (callerType : CallerT) (caller : Address)
    (shid : SubnetID) (value : Int) : Except Exit SCAState :=
  if callerType ≠ CallerT.Account then Except.error Exit.SysErrForbidden
  else if value ≤ 0 then Except.error Exit.IllegalArgument
  else
    match GetSubnet st shid with
    | none => Except.error Exit.IllegalArgument
    | some sh => Except.ok (flushSubnet st (addFundMsg (freezeFunds sh value) caller value))

/-! ## Checkpoint commitment (`CommitChildCheckpoint`) -/

/-- In this version of the schema `MsgTreeList` is an empty struct
(cross-message trees are still under development), so a checkpoint
carries no cross-message metas: `CrossMsgs()` yields the empty list. -/
def Checkpoint.CrossMsgs (_ : Checkpoint) : List CrossMsgMeta := []

/-- Modelled from the spec: `storeDownTopMsgMeta` (outside the
provided sources) enqueues a meta addressed to this subnet into
`bottom_up_msgs_meta` under the next `bottom_up_nonce`, advancing it. -/
def storeDownTopMsgMeta (st : SCAState) (mm : CrossMsgMeta) : SCAState :=
  { st with
    BottomUpMsgsMeta := st.BottomUpMsgsMeta ++ [{ mm with Nonce := st.BottomUpNonce }]
    BottomUpNonce := st.BottomUpNonce + 1 }

/-- The `aux` grouping of `applyCheckMsgs`: append the meta under its
destination, creating the entry when absent. -/
def auxAppend (aux : List (SubnetID × List CrossMsgMeta)) (mm : CrossMsgMeta) :
    List (SubnetID × List CrossMsgMeta) :=
  match mapGet aux mm.To with
  | none => aux ++ [(mm.To, [mm])]
  | some l => mapPut aux mm.To (l ++ [mm])

/-- Modelled from the spec: `aggChildMsgMeta` (outside the provided
sources) aggregates the grouped metas into the window checkpoint; in
this schema version a checkpoint stores no cross-message metas and
`CrossMsgs()` is always empty, so the grouping is empty and the
aggregation changes nothing. -/
def aggChildMsgMeta (st : SCAState) (windowCh : Checkpoint)
    (_ : List (SubnetID × List CrossMsgMeta)) : SCAState × Checkpoint :=
  (st, windowCh)

/-- `applyCheckMsgs`: route each meta of the child checkpoint — to the
bottom-up queue when addressed to this subnet, otherwise into the
per-destination grouping aggregated into the window checkpoint. -/
def applyCheckMsgs (st : SCAState) (windowCh : Checkpoint)
    (childCh : Checkpoint) : SCAState × Checkpoint :=
  let acc := childCh.CrossMsgs.foldl
    (fun (acc : SCAState × List (SubnetID × List CrossMsgMeta)) mm =>
      if mm.To = acc.1.NetworkName then (storeDownTopMsgMeta acc.1 mm, acc.2)
      else (acc.1, auxAppend acc.2 mm))
    (st, [])
  aggChildMsgMeta acc.1 windowCh acc.2

/-- `CurrWindowCheckpoint`: the checkpoint template of the current
window (`WindowEpoch(e, p) = (e / p) * p`, modelled from the spec),
creating an empty template when absent. -/
def CurrWindowCheckpoint (st : SCAState) (epoch : Int) : Checkpoint :=
  let chEpoch := epoch / st.CheckPeriod * st.CheckPeriod
  match mapGet st.Checkpoints chEpoch with
  | some ch => ch
  | none => NewRawCheckpoint st.NetworkName chEpoch (Checkpoint.Cid EmptyCheckpoint) none

/-- The success path of `CommitChildCheckpoint`: apply the child's
cross-messages, append the child to the window checkpoint, persist the
window checkpoint, and record the commit as the subnet's previous
checkpoint.  (The Go source repeats this block verbatim in both the
first-commit and the checked branch.) -/
def commitAccept (st : SCAState) (ch : Checkpoint) (sh : Subnet)
    (commit : Checkpoint) : SCAState :=
  let a := applyCheckMsgs st ch commit
  let ch1 := Checkpoint.AddChild a.2 commit
  let st1 := flushCheckpoint a.1 ch1
  flushSubnet st1 { sh with PrevCheckpoint := commit }

/-- `SubnetCoordActor.CommitChildCheckpoint`: caller/source checks,
registration and `Active` checks, then — unless the stored previous
checkpoint is the canonical empty one — the epoch and previous-CID
chaining checks, before accepting the commit. -/
def CommitChildCheckpoint (st : SCAState) (callerType : CallerT)
    (caller : Address) (currEpoch : Int) (commit : Checkpoint) :
    Except Exit SCAState :=
  if callerType ≠ CallerT.SubnetActor then Except.error Exit.SysErrForbidden
  else
    match subnetIDActor commit.Data.Source with
    | none => Except.error Exit.IllegalArgument
    | some source =>
      if source ≠ caller then Except.error Exit.IllegalArgument
      else
        match GetSubnet st (NewSubnetID st.NetworkName caller) with
        | none => Except.error Exit.IllegalArgument
        | some sh =>
          if sh.Status ≠ Status.Active then Except.error Exit.IllegalState
          else
            let ch := CurrWindowCheckpoint st currEpoch
            if sh.PrevCheckpoint.IsEmpty then
              Except.ok (commitAccept st ch sh commit)
            else if commit.Data.Epoch < sh.PrevCheckpoint.Data.Epoch then
              Except.error Exit.IllegalArgument
            else if Checkpoint.PreviousCheck commit ≠ Checkpoint.Cid sh.PrevCheckpoint then
              Except.error Exit.IllegalArgument
            else Except.ok (commitAccept st ch sh commit)

/-! ## Subnet actor state and vote tally (`actors/subnet`) -/

/-- Consensus kinds supported for subnets. -/
inductive ConsensusType where
  | Delegated
  | PoW
deriving DecidableEq

/-- Subnet-actor lifecycle status (`subnet.Status`). -/
inductive SAStatus where
  | Instantiated
  | SAActive
  | SAInactive
  | Terminating
  | SAKilled
deriving DecidableEq

/-- `SubnetState` of the per-subnet actor, with the HAMT roots
replaced by the collections they denote. -/
structure SubnetState where
  Name : List Nat
  ParentID : SubnetID
  Consensus : ConsensusType
  MinMinerStake : Int
  Miners : List Address
  TotalStake : Int
  Stake : List (Address × Int)
  Status : SAStatus
  Genesis : List Nat
  CheckPeriod : Int
  Checkpoints : List (Int × Checkpoint)
  WindowChecks : List (List Nat × List Address)
deriving DecidableEq

/-- `CheckVotes`: the miners having voted for one window checkpoint. -/
structure CheckVotes where
  Miners : List Address
deriving DecidableEq

/-- `SignatureThreshold = float32(0.66)`.  The Go `float32` ratio test
is modelled in exact rational arithmetic; for list lengths far below
`2^24` the conversions are exact and the single rounding of the
division cannot cross the threshold except for ratios within `3e-8` of
it, which would need tens of millions of miners. -/
def SignatureThreshold : ℚ := 0.66

/-- `SubnetState.majorityVote`: the fraction of the subnet's miners
having voted reaches the signature threshold. -/
def majorityVote (st : SubnetState) (wch : CheckVotes) : Prop :=
  ((wch.Miners.length : ℚ) / (st.Miners.length : ℚ)) ≥ SignatureThreshold

instance (st : SubnetState) (wch : CheckVotes) : Decidable (majorityVote st wch) := by
  unfold majorityVote
  infer_instance

/-! ## Block messages (`chain/types/blockmsg.go`)

The cbor-gen (un)marshalers for `BlockMsg`/`OldBlockMsg` are generated
code outside the provided sources; they are modelled from the struct
declarations as the standard cbor-gen tuple encoding (an array of 4,
resp. 3, fields), with the `BlockHeader` kept as an opaque CBOR item
(its raw bytes). -/

/-- `BlockMsg`.  `CrossMessages` is `Option` to distinguish Go's `nil`
slice (`none`) from a decoded (possibly empty) list. -/
structure BlockMsg where
  Header : List Nat
  BlsMessages : List (List Nat)
  SecpkMessages : List (List Nat)
  CrossMessages : Option (List (List Nat))
deriving DecidableEq

/-- `OldBlockMsg`: the legacy three-field block message. -/
structure OldBlockMsg where
  Header : List Nat
  BlsMessages : List (List Nat)
  SecpkMessages : List (List Nat)
deriving DecidableEq

/-- Skip `k` CBOR items, returning the consumed bytes and the rest.
`fuel` bounds the nesting depth; `input.length + 1` always suffices. -/
def skipItems : Nat → Nat → List Nat → Option (List Nat × List Nat)
  | 0, _, _ => none
  | _ + 1, 0, s => some ([], s)
  | fuel + 1, k + 1, s =>
    (decHead s).bind fun x =>
    let hd := s.take (s.length - x.2.2.length)
    (if x.1 = 2 ∨ x.1 = 3 then
      if x.2.1 ≤ x.2.2.length then some (x.2.2.take x.2.1, x.2.2.drop x.2.1) else none
    else if x.1 = 4 then skipItems fuel x.2.1 x.2.2
    else if x.1 = 5 then skipItems fuel (x.2.1 + x.2.1) x.2.2
    else if x.1 = 6 then skipItems fuel 1 x.2.2
    else some ([], x.2.2)).bind fun body =>
    (skipItems fuel k body.2).bind fun tail =>
    some (hd ++ body.1 ++ tail.1, tail.2)

/-- Decode `k` consecutive CID links. -/
def decLinks : Nat → List Nat → Option (List (List Nat) × List Nat)
  | 0, s => some ([], s)
  | k + 1, s =>
    (decLink s).bind fun c =>
    (decLinks k c.2).bind fun cs =>
    some (c.1 :: cs.1, cs.2)

/-- Decode a CBOR array of CID links (one `[]cid.Cid` field). -/
def decCidList (s : List Nat) : Option (List (List Nat) × List Nat) :=
  (decHead s).bind fun x =>
    if x.1 = 4 then decLinks x.2.1 x.2.2 else none

/-- `BlockMsg.UnmarshalCBOR` model: a 4-element tuple of header, BLS,
Secpk and cross message CID lists. -/
def unmarshalBlockMsg (b : List Nat) : Option BlockMsg :=
  (decHead b).bind fun x =>
    if x.1 = 4 ∧ x.2.1 = 4 then
      (skipItems (b.length + 1) 1 x.2.2).bind fun hd =>
      (decCidList hd.2).bind fun bls =>
      (decCidList bls.2).bind fun secpk =>
      (decCidList secpk.2).bind fun cross =>
      some { Header := hd.1, BlsMessages := bls.1, SecpkMessages := secpk.1,
             CrossMessages := some cross.1 }
    else none

/-- `OldBlockMsg.UnmarshalCBOR` model: a 3-element tuple of header,
BLS and Secpk message CID lists. -/
def unmarshalOldBlockMsg (b : List Nat) : Option OldBlockMsg :=
  (decHead b).bind fun x =>
    if x.1 = 4 ∧ x.2.1 = 3 then
      (skipItems (b.length + 1) 1 x.2.2).bind fun hd =>
      (decCidList hd.2).bind fun bls =>
      (decCidList bls.2).bind fun secpk =>
      some { Header := hd.1, BlsMessages := bls.1, SecpkMessages := secpk.1 }
    else none

/-- `DecodeBlockMsg`: try the current format, fall back to the legacy
one.  The fallback copies header and message lists from the legacy
message; `CrossMessages` stays nil, because the failed new-format
attempt rejects the 3-element tuple at its arity check before writing
any field. -/
def DecodeBlockMsg (b : List Nat) : Option BlockMsg :=
  match unmarshalBlockMsg b with
  | some bm => some bm
  | none =>
    match unmarshalOldBlockMsg b with
    | none => none
    | some obm =>
      some { Header := obm.Header, BlsMessages := obm.BlsMessages,
             SecpkMessages := obm.SecpkMessages, CrossMessages := none }

/-! ## Claim theorems -/

/-- C2: for any two checkpoints with equal `Data`, `Cid` agrees
regardless of the signatures; mutating only the signature leaves the
CID unchanged; and `Equals` holds exactly when the CIDs are equal. -/
theorem checkpoint_cid_ignores_signature (c1 c2 : Checkpoint) (s : List Nat) :
    (c1.Data = c2.Data → Checkpoint.Cid c1 = Checkpoint.Cid c2)
    ∧ Checkpoint.Cid { c1 with Signature := s } = Checkpoint.Cid c1
    ∧ (Checkpoint.Equals c1 c2 = true ↔ Checkpoint.Cid c1 = Checkpoint.Cid c2) := by
  refine ⟨fun h => ?_, ?_, ?_⟩
  · unfold Checkpoint.Cid
    rw [h]
  · unfold Checkpoint.Cid
    rfl
  · unfold Checkpoint.Equals
    exact decide_eq_true_iff

/-- Witness for C2 at a concrete pair: same data, different
signatures, equal CIDs. -/
theorem checkpoint_cid_ignores_signature_witness :
    Checkpoint.Cid { Data := EmptyCheckpoint.Data, Signature := [1, 2] } =
      Checkpoint.Cid EmptyCheckpoint :=
  (checkpoint_cid_ignores_signature
    { Data := EmptyCheckpoint.Data, Signature := [1, 2] } EmptyCheckpoint [1, 2]).1 rfl

/-- C3: decoding the bytes produced by encoding a well-formed
checkpoint yields the checkpoint back, and in particular the CID of
the decoded checkpoint equals the CID of the original. -/
theorem checkpoint_roundtrip (c : Checkpoint) (h : wfCheckpoint c) :
    Checkpoint.UnmarshalCBOR (Checkpoint.MarshalCBOR c) = some c
    ∧ (Checkpoint.UnmarshalCBOR (Checkpoint.MarshalCBOR c)).map Checkpoint.Cid =
      some (Checkpoint.Cid c) := by
  have hdec : decCheckpoint (Checkpoint.MarshalCBOR c ++ []) = some (c, []) :=
    decCheckpoint_enc c [] h
  rw [List.append_nil] at hdec
  constructor
  · unfold Checkpoint.UnmarshalCBOR
    rw [hdec]
    rfl
  · unfold Checkpoint.UnmarshalCBOR
    rw [hdec]
    rfl

/-- A concrete well-formed checkpoint exercising every field. -/
def c3w : Checkpoint :=
  { Data := { Source := [114, 111, 111, 116, 47, 49], TipSet := [1, 2],
              Epoch := 10, PrevCheckpoint := [0, 1],
              Childs := [{ Source := [97], Check := [3] }],
              XShardMsg := some () },
    Signature := [9, 9] }

/-- Witness for C3 at a concrete checkpoint. -/
theorem checkpoint_roundtrip_witness :
    Checkpoint.UnmarshalCBOR (Checkpoint.MarshalCBOR c3w) = some c3w :=
  (checkpoint_roundtrip c3w (by decide)).1

/-- C9: `DecodeBlockMsg` errs exactly when both the current and the
legacy format fail to decode; when only the legacy format succeeds the
result carries the legacy header and message lists and a nil
`CrossMessages`. -/
theorem decodeBlockMsg_spec (b : List Nat) :
    (DecodeBlockMsg b = none ↔
      unmarshalBlockMsg b = none ∧ unmarshalOldBlockMsg b = none)
    ∧ (∀ bm, unmarshalBlockMsg b = some bm → DecodeBlockMsg b = some bm)
    ∧ (∀ obm, unmarshalBlockMsg b = none → unmarshalOldBlockMsg b = some obm →
        DecodeBlockMsg b = some { Header := obm.Header,
                                  BlsMessages := obm.BlsMessages,
                                  SecpkMessages := obm.SecpkMessages,
                                  CrossMessages := none }) := by
  unfold DecodeBlockMsg
  cases h1 : unmarshalBlockMsg b with
  | some bm => simp
  | none =>
    cases h2 : unmarshalOldBlockMsg b with
    | some obm => simp
    | none => simp

/-- Witness for C9: a legacy 3-tuple block message decodes through the
fallback with nil `CrossMessages`. -/
theorem decodeBlockMsg_spec_witness :
    DecodeBlockMsg [131, 0, 128, 128] =
      some { Header := [0], BlsMessages := [], SecpkMessages := [],
             CrossMessages := none } :=
  (decodeBlockMsg_spec [131, 0, 128, 128]).2.2
    { Header := [0], BlsMessages := [], SecpkMessages := [] }
    (by decide) (by decide)

/-- C10: `ConstructSCAState` starts `AppliedBottomUpNonce` at
`MaxNonce = 2^64 - 1` (so the first expected bottom-up nonce,
`AppliedBottomUpNonce + 1` modulo `2^64`, is `0`), while
`TotalSubnets`, `Nonce`, `BottomUpNonce` and `AppliedTopDownNonce`
start at `0`. -/
theorem constructSCAState_nonces (params : ConstructorParams) :
    (ConstructSCAState params).AppliedBottomUpNonce = MaxNonce
    ∧ MaxNonce = 2 ^ 64 - 1
    ∧ (MaxNonce + 1) % 2 ^ 64 = 0
    ∧ (ConstructSCAState params).TotalSubnets = 0
    ∧ (ConstructSCAState params).Nonce = 0
    ∧ (ConstructSCAState params).BottomUpNonce = 0
    ∧ (ConstructSCAState params).AppliedTopDownNonce = 0 :=
  ⟨rfl, rfl, by norm_num [MaxNonce], rfl, rfl, rfl, rfl⟩

/-- A checkpoint already holding one child entry for source `[97]`. -/
def c4base : Checkpoint :=
  { Data := { Source := [114], TipSet := [], Epoch := 0, PrevCheckpoint := [],
              Childs := [{ Source := [97], Check := [5] }], XShardMsg := none },
    Signature := [] }

/-- A later check from the same source `[97]`. -/
def c4child : ChildCheck := { Source := [97], Check := [6] }

/-- C4 counterexample: adding a check whose source already has an
entry does not extend that entry — the existing entry is overwritten
and a duplicate entry is appended, so the child list grows from one
entry to two entries of the same source. -/
theorem addChildChecks_counterexample :
    (Checkpoint.AddChildChecks c4base [c4child]).Data.Childs = [c4child, c4child]
    ∧ c4base.Data.Childs.length = 1
    ∧ ((Checkpoint.AddChildChecks c4base [c4child]).Data.Childs.filter
        (fun e => e.Source = [97])).length = 2 := by
  decide

/-- C4 (amended): for each child added, when no entry with the same
source exists the child is appended as a new entry; when an entry with
the same source exists at index `i`, that entry is overwritten with
the new child and the new child is nevertheless appended as an
additional (duplicate) entry.  The operation is not idempotent. -/
theorem addChildChecks_spec (c : Checkpoint) (ch : ChildCheck) :
    (c.hasChild ch = -1 →
      (Checkpoint.AddChildChecks c [ch]).Data.Childs = c.Data.Childs ++ [ch])
    ∧ (∀ i : Nat, c.hasChild ch = (i : Int) →
      (Checkpoint.AddChildChecks c [ch]).Data.Childs =
        c.Data.Childs.set i ch ++ [ch]) := by
  constructor
  · intro h
    simp [Checkpoint.AddChildChecks, addChildCheck, h]
  · intro i h
    simp [Checkpoint.AddChildChecks, addChildCheck, h]

/-- Witness for C4 at the concrete checkpoint: the duplicate-source
add overwrites entry 0 and appends. -/
theorem addChildChecks_spec_witness :
    (Checkpoint.AddChildChecks c4base [c4child]).Data.Childs =
      c4base.Data.Childs.set 0 c4child ++ [c4child] :=
  (addChildChecks_spec c4base c4child).2 0 (by decide)

/-- C7: `Register` aborts with `IllegalArgument` when the subnet id is
already registered or the sent value does not exceed the minimum stake
(sending exactly `min_stake` fails); otherwise it registers an entry
with status `Active`, zero circulating supply, empty top-down queue
and the empty checkpoint as previous checkpoint, and returns the new
`SubnetID` built from the network name and the caller. -/
theorem register_spec (st : SCAState) (caller : Address) (value : Int) :
    ((GetSubnet st (NewSubnetID st.NetworkName caller)).isSome = true →
      Register st CallerT.SubnetActor caller value = Except.error Exit.IllegalArgument)
    ∧ (value ≤ st.MinStake →
      Register st CallerT.SubnetActor caller value = Except.error Exit.IllegalArgument)
    ∧ (GetSubnet st (NewSubnetID st.NetworkName caller) = none →
      st.MinStake < value →
      Register st CallerT.SubnetActor caller value =
        Except.ok (registerSubnet st (NewSubnetID st.NetworkName caller) value,
                   NewSubnetID st.NetworkName caller)
      ∧ GetSubnet (registerSubnet st (NewSubnetID st.NetworkName caller) value)
          (NewSubnetID st.NetworkName caller) =
        some { ID := NewSubnetID st.NetworkName caller,
               ParentID := st.NetworkName,
               Stake := value,
               TopDownMsgs := [],
               Nonce := 0,
               CircSupply := 0,
               Status := Status.Active,
               PrevCheckpoint := EmptyCheckpoint }) := by
  refine ⟨fun h => ?_, fun h => ?_, fun h1 h2 => ⟨?_, ?_⟩⟩
  · simp [Register, h]
  · cases hg : (GetSubnet st (NewSubnetID st.NetworkName caller)).isSome with
    | true => simp [Register, hg]
    | false => simp [Register, hg, h]
  · simp [Register, h1, not_le.mpr h2]
  · unfold registerSubnet flushSubnet GetSubnet
    exact mapGet_put_same _ _ _

/-- A freshly constructed SCA state for the root network. -/
def st7 : SCAState :=
  ConstructSCAState { NetworkName := [114, 111, 111, 116], CheckpointPeriod := 10 }

/-- Witness for C7: on the fresh state, sending `min_stake + 1`
registers and returns the id; sending exactly `min_stake` aborts. -/
theorem register_spec_witness :
    Register st7 CallerT.SubnetActor [49] (MinSubnetStake + 1) =
      Except.ok (registerSubnet st7 (NewSubnetID st7.NetworkName [49]) (MinSubnetStake + 1),
                 NewSubnetID st7.NetworkName [49])
    ∧ Register st7 CallerT.SubnetActor [49] MinSubnetStake =
      Except.error Exit.IllegalArgument :=
  ⟨((register_spec st7 [49] (MinSubnetStake + 1)).2.2 (by decide)
      (by show MinSubnetStake < MinSubnetStake + 1; omega)).1,
   (register_spec st7 [49] MinSubnetStake).2.1
      (by show MinSubnetStake ≤ MinSubnetStake; omega)⟩

/-- The subnet id `root/1` used by the Kill scenarios. -/
def shid6 : SubnetID := [114, 111, 111, 116, 47, 49]

/-- A registered subnet with live user funds (`circ_supply = 1`). -/
def sh6a : Subnet :=
  { ID := shid6, ParentID := [114, 111, 111, 116], Stake := 5,
    TopDownMsgs := [], Nonce := 0, CircSupply := 1,
    Status := Status.Active, PrevCheckpoint := EmptyCheckpoint }

/-- An SCA state holding `sh6a`. -/
def st6a : SCAState :=
  { ConstructSCAState { NetworkName := [114, 111, 111, 116], CheckpointPeriod := 10 } with
    Subnets := [(shid6, sh6a)] }

/-- The same subnet with no circulating funds. -/
def sh6b : Subnet := { sh6a with CircSupply := 0 }

/-- An SCA state holding `sh6b`. -/
def st6b : SCAState :=
  { ConstructSCAState { NetworkName := [114, 111, 111, 116], CheckpointPeriod := 10 } with
    Subnets := [(shid6, sh6b)] }

/-- C6 counterexample: with `circ_supply = 1 > 0` but an actor balance
short of the stake, `Kill` aborts with `IllegalState` — the balance
sanity check fires before the circulating-supply check — not with
`Forbidden` as the claim states. -/
theorem kill_counterexample :
    GetSubnet st6a (NewSubnetID st6a.NetworkName [49]) = some sh6a
    ∧ 0 < sh6a.CircSupply
    ∧ Kill st6a CallerT.SubnetActor [49] 0 = Except.error Exit.IllegalState
    ∧ Exit.IllegalState ≠ Exit.Forbidden := by
  decide

/-- C6 (amended): for a registered subnet whose stake the actor
balance covers, `Kill` aborts with `Forbidden` whenever
`circ_supply > 0`, leaving the state unchanged (the aborted
transaction carries no state); with `circ_supply = 0` the entry is
removed from the registry and the full stake is sent back. -/
theorem kill_spec (st : SCAState) (caller : Address) (balance : Int) (sh : Subnet)
    (hreg : GetSubnet st (NewSubnetID st.NetworkName caller) = some sh)
    (hbal : sh.Stake ≤ balance) :
    (0 < sh.CircSupply →
      Kill st CallerT.SubnetActor caller balance = Except.error Exit.Forbidden)
    ∧ (sh.CircSupply = 0 →
      Kill st CallerT.SubnetActor caller balance =
        Except.ok ({ st with
                     Subnets := mapDel st.Subnets (NewSubnetID st.NetworkName caller) },
                   sh.Stake)
      ∧ GetSubnet { st with
                    Subnets := mapDel st.Subnets (NewSubnetID st.NetworkName caller) }
          (NewSubnetID st.NetworkName caller) = none) := by
  constructor
  · intro h
    simp [Kill, hreg, not_lt.mpr hbal, h]
  · intro h
    refine ⟨?_, ?_⟩
    · simp [Kill, hreg, not_lt.mpr hbal, h]
    · exact mapGet_del_same _ _

/-- Witness for C6: `Kill` succeeds and returns the stake when
`circ_supply = 0`, and aborts with `Forbidden` when `circ_supply = 1`
and the balance covers the stake. -/
theorem kill_spec_witness :
    Kill st6b CallerT.SubnetActor [49] 5 =
      Except.ok ({ st6b with
                   Subnets := mapDel st6b.Subnets (NewSubnetID st6b.NetworkName [49]) },
                 sh6b.Stake)
    ∧ Kill st6a CallerT.SubnetActor [49] 5 = Except.error Exit.Forbidden :=
  ⟨((kill_spec st6b [49] 5 sh6b (by decide) (by decide)).2 (by decide)).1,
   (kill_spec st6a [49] 5 sh6a (by decide) (by decide)).1 (by decide)⟩

/-- C5 (amended): `Fund` requires an account caller and a positive
value and that the target subnet is registered — its status is not
checked — and on success freezes the value into `circ_supply`,
appends a top-down message carrying it addressed to the caller, and
advances the subnet's nonce. -/
theorem fund_spec (st : SCAState) (caller : Address) (shid : SubnetID) (value : Int) :
    (∀ ct, ct ≠ CallerT.Account →
      Fund st ct caller shid value = Except.error Exit.SysErrForbidden)
    ∧ (value ≤ 0 →
      Fund st CallerT.Account caller shid value = Except.error Exit.IllegalArgument)
    ∧ (GetSubnet st shid = none → 0 < value →
      Fund st CallerT.Account caller shid value = Except.error Exit.IllegalArgument)
    ∧ (∀ sh, GetSubnet st shid = some sh → 0 < value →
      Fund st CallerT.Account caller shid value =
        Except.ok (flushSubnet st (addFundMsg (freezeFunds sh value) caller value))
      ∧ GetSubnet (flushSubnet st (addFundMsg (freezeFunds sh value) caller value)) sh.ID =
        some { sh with
               CircSupply := sh.CircSupply + value,
               TopDownMsgs := sh.TopDownMsgs
                 ++ [{ To := caller, Value := value, Nonce := sh.Nonce }],
               Nonce := sh.Nonce + 1 }) := by
  refine ⟨fun ct hct => ?_, fun h => ?_, fun h hv => ?_, fun sh h hv => ⟨?_, ?_⟩⟩
  · simp [Fund, hct]
  · simp [Fund, h]
  · simp [Fund, h, not_le.mpr hv]
  · simp [Fund, h, not_le.mpr hv]
  · exact mapGet_put_same _ _ _

/-- The subnet id `root/2` of the Fund scenario. -/
def shid5 : SubnetID := [114, 111, 111, 116, 47, 50]

/-- A registered subnet that is `Inactive`. -/
def sh5 : Subnet :=
  { ID := shid5, ParentID := [114, 111, 111, 116], Stake := 3,
    TopDownMsgs := [], Nonce := 0, CircSupply := 0,
    Status := Status.Inactive, PrevCheckpoint := EmptyCheckpoint }

/-- An SCA state holding the inactive subnet `sh5`. -/
def st5 : SCAState :=
  { ConstructSCAState { NetworkName := [114, 111, 111, 116], CheckpointPeriod := 10 } with
    Subnets := [(shid5, sh5)] }

/-- C5 counterexample: the target subnet is registered but `Inactive`,
yet `Fund` succeeds — the source checks existence only, never the
status, contradicting the claim that it aborts unless the subnet is
`Active`. -/
theorem fund_counterexample :
    GetSubnet st5 shid5 = some sh5
    ∧ sh5.Status = Status.Inactive
    ∧ Fund st5 CallerT.Account [51] shid5 7 =
      Except.ok (flushSubnet st5 (addFundMsg (freezeFunds sh5 7) [51] 7)) := by
  decide

/-- Witness for C5 at the concrete state: funding appends the
top-down message and freezes the funds. -/
theorem fund_spec_witness :
    Fund st5 CallerT.Account [51] shid5 7 =
      Except.ok (flushSubnet st5 (addFundMsg (freezeFunds sh5 7) [51] 7))
    ∧ GetSubnet (flushSubnet st5 (addFundMsg (freezeFunds sh5 7) [51] 7)) sh5.ID =
      some { sh5 with
             CircSupply := sh5.CircSupply + 7,
             TopDownMsgs := sh5.TopDownMsgs ++ [{ To := [51], Value := 7, Nonce := sh5.Nonce }],
             Nonce := sh5.Nonce + 1 } :=
  (fund_spec st5 [51] shid5 7).2.2.2 sh5 (by decide) (by decide)

/-- A subnet actor state with 50 miners. -/
def st8 : SubnetState :=
  { Name := [], ParentID := [], Consensus := ConsensusType.PoW, MinMinerStake := 0,
    Miners := (List.range 50).map (fun i => [i]), TotalStake := 0, Stake := [],
    Status := SAStatus.SAActive, Genesis := [], CheckPeriod := 10,
    Checkpoints := [], WindowChecks := [] }

/-- A vote tally with 33 voters. -/
def w8 : CheckVotes := { Miners := (List.range 33).map (fun i => [i]) }

/-- C8 counterexample: with 50 miners and 33 voters the threshold test
passes (`33/50 = 0.66 ≥ 0.66`), yet `33/50` is strictly below
two-thirds — the majority test is not equivalent to a two-thirds
majority. -/
theorem majority_counterexample :
    majorityVote st8 w8
    ∧ ¬ ((w8.Miners.length : ℚ) / (st8.Miners.length : ℚ) ≥ 2 / 3) := by
  have h1 : st8.Miners.length = 50 := by decide
  have h2 : w8.Miners.length = 33 := by decide
  constructor
  · unfold majorityVote SignatureThreshold
    rw [h1, h2]
    norm_num
  · rw [h1, h2]
    norm_num

/-- C8 (amended): the majority test holds exactly when the voters'
fraction of the miners reaches `SignatureThreshold = 0.66`
(equivalently, the miner set is nonempty and `33·miners ≤ 50·voters`);
in particular an SA with 3 miners forwards after the second vote
(`2/3 ≥ 0.66`) and not after the first (`1/3 < 0.66`). -/
theorem majorityVote_spec :
    (∀ (st : SubnetState) (wch : CheckVotes),
      majorityVote st wch ↔
        0 < st.Miners.length ∧ 33 * st.Miners.length ≤ 50 * wch.Miners.length)
    ∧ (∀ (st : SubnetState) (wch2 wch1 : CheckVotes),
        st.Miners.length = 3 → wch2.Miners.length = 2 → wch1.Miners.length = 1 →
        majorityVote st wch2 ∧ ¬ majorityVote st wch1) := by
  constructor
  · intro st wch
    unfold majorityVote SignatureThreshold
    rcases Nat.eq_zero_or_pos st.Miners.length with h0 | hpos
    · rw [h0]
      norm_num
    · have hq : (0 : ℚ) < (st.Miners.length : ℚ) := by exact_mod_cast hpos
      rw [ge_iff_le, show (0.66 : ℚ) = 33 / 50 by norm_num,
        div_le_div_iff₀ (by norm_num) hq]
      constructor
      · intro h
        refine ⟨hpos, ?_⟩
        have h2 : (33 * st.Miners.length : ℚ) ≤ (50 * wch.Miners.length : ℚ) := by
          linarith
        exact_mod_cast h2
      · rintro ⟨-, h⟩
        have h2 : (33 * st.Miners.length : ℚ) ≤ (50 * wch.Miners.length : ℚ) := by
          exact_mod_cast h
        push_cast at h2
        linarith
  · intro st wch2 wch1 h3 h2 h1
    constructor
    · unfold majorityVote SignatureThreshold
      rw [h3, h2]
      norm_num
    · unfold majorityVote SignatureThreshold
      rw [h3, h1]
      norm_num

/-- Witness for C8: with 3 miners, 2 votes reach the threshold and 1
vote does not. -/
theorem majorityVote_spec_witness :
    majorityVote { st8 with Miners := [[0], [1], [2]] } { Miners := [[0], [1]] }
    ∧ ¬ majorityVote { st8 with Miners := [[0], [1], [2]] } { Miners := [[0]] } :=
  majorityVote_spec.2 { st8 with Miners := [[0], [1], [2]] }
    { Miners := [[0], [1]] } { Miners := [[0]] } (by decide) (by decide) (by decide)

/-- C1: for a commit by a registered `Active` subnet from the right
source, when the stored previous checkpoint is not the canonical
empty checkpoint the commit succeeds exactly when
`commit.Data.Epoch ≥ prev.Data.Epoch` (equal epochs accepted) and
`commit.Data.PrevCheckpoint = cid(prev)`; violating either aborts
with `IllegalArgument` (the aborted transaction carries no state, so
the state is unchanged).  When the stored previous checkpoint is
empty both chaining checks are skipped and the commit is accepted. -/
theorem commitChildCheckpoint_chaining (st : SCAState) (caller : Address)
    (currEpoch : Int) (commit : Checkpoint) (sh : Subnet)
    (hreg : GetSubnet st (NewSubnetID st.NetworkName caller) = some sh)
    (hact : sh.Status = Status.Active)
    (hsrc : subnetIDActor commit.Data.Source = some caller) :
    (sh.PrevCheckpoint.IsEmpty = true →
      CommitChildCheckpoint st CallerT.SubnetActor caller currEpoch commit =
        Except.ok (commitAccept st (CurrWindowCheckpoint st currEpoch) sh commit))
    ∧ (sh.PrevCheckpoint.IsEmpty = false →
      ((CommitChildCheckpoint st CallerT.SubnetActor caller currEpoch commit =
          Except.ok (commitAccept st (CurrWindowCheckpoint st currEpoch) sh commit)) ↔
        (sh.PrevCheckpoint.Data.Epoch ≤ commit.Data.Epoch
          ∧ Checkpoint.PreviousCheck commit = Checkpoint.Cid sh.PrevCheckpoint))
      ∧ (¬ (sh.PrevCheckpoint.Data.Epoch ≤ commit.Data.Epoch
            ∧ Checkpoint.PreviousCheck commit = Checkpoint.Cid sh.PrevCheckpoint) →
        CommitChildCheckpoint st CallerT.SubnetActor caller currEpoch commit =
          Except.error Exit.IllegalArgument)) := by
  unfold CommitChildCheckpoint
  simp only [hsrc, hreg, hact, ne_eq, not_true_eq_false, if_false, ite_false]
  constructor
  · intro hemp
    simp [hemp]
  · intro hemp
    simp only [hemp, Bool.false_eq_true, if_false]
    constructor
    · constructor
      · intro hok
        by_cases he : commit.Data.Epoch < sh.PrevCheckpoint.Data.Epoch
        · simp [he] at hok
        · by_cases hc : Checkpoint.PreviousCheck commit = Checkpoint.Cid sh.PrevCheckpoint
          · exact ⟨not_lt.mp he, hc⟩
          · simp [he, hc] at hok
      · rintro ⟨h1, h2⟩
        simp [not_lt.mpr h1, h2]
    · intro hn
      by_cases he : commit.Data.Epoch < sh.PrevCheckpoint.Data.Epoch
      · simp [he]
      · have hc : ¬ Checkpoint.PreviousCheck commit = Checkpoint.Cid sh.PrevCheckpoint :=
          fun hc => hn ⟨not_lt.mp he, hc⟩
        simp [he, hc]

/-- The root network name of the C1 scenario. -/
def nn1 : SubnetID := [114, 111, 111, 116]

/-- A non-empty previously committed checkpoint at epoch 10. -/
def c1prev : Checkpoint :=
  { Data := { Source := [114, 111, 111, 116, 47, 49], TipSet := [], Epoch := 10,
              PrevCheckpoint := [], Childs := [], XShardMsg := none },
    Signature := [] }

/-- A commit at the same epoch 10, correctly chained to `c1prev`. -/
def c1commit : Checkpoint :=
  { Data := { Source := [114, 111, 111, 116, 47, 49], TipSet := [], Epoch := 10,
              PrevCheckpoint := Checkpoint.Cid c1prev, Childs := [], XShardMsg := none },
    Signature := [] }

/-- The registered `Active` subnet with `c1prev` as previous checkpoint. -/
def c1sh : Subnet :=
  { ID := [114, 111, 111, 116, 47, 49], ParentID := nn1, Stake := 5,
    TopDownMsgs := [], Nonce := 0, CircSupply := 0,
    Status := Status.Active, PrevCheckpoint := c1prev }

/-- The SCA state of the C1 scenario. -/
def c1st : SCAState :=
  { ConstructSCAState { NetworkName := nn1, CheckpointPeriod := 10 } with
    Subnets := [([114, 111, 111, 116, 47, 49], c1sh)] }

set_option maxRecDepth 100000 in
/-- Witness for C1: the previous checkpoint is non-empty, the commit
has an equal epoch and the matching previous CID, and is accepted. -/
theorem commitChildCheckpoint_chaining_witness :
    c1sh.PrevCheckpoint.IsEmpty = false
    ∧ c1sh.PrevCheckpoint.Data.Epoch = c1commit.Data.Epoch
    ∧ CommitChildCheckpoint c1st CallerT.SubnetActor [49] 12 c1commit =
      Except.ok (commitAccept c1st (CurrWindowCheckpoint c1st 12) c1sh c1commit) :=
  ⟨by decide, by decide,
   (((commitChildCheckpoint_chaining c1st [49] 12 c1commit c1sh
        (by decide) (by decide) (by decide)).2 (by decide)).1).mpr
     ⟨by decide, by decide⟩⟩
